import Mathlib

/-!
Verification of the blog-updater conversion logic (`blog_updater.py`).

The development shallowly embeds the pure content of the script:

* word-processor documents are lists of paragraphs, each a style name plus a
  list of runs (text + bold flag); `Para.text` is the concatenation of the
  run texts, as produced by the docx library;
* Python string primitives used by the script (`str.strip`, `str.split`,
  `len`, slicing, `int(...)`, `in`, `str.replace`, `str.endswith`) are
  embedded as executable functions over `List Char`;
* the content classifier `classify_para` and the extraction loop
  `extractLoop` embed `extract_content_from_docx` (lines 65-105), including
  the possible `ValueError` raised by `int(style.split()[-1])`, modelled as
  `Option` (`none` = exception);
* `get_blog_title_from_docx` / `get_blog_description_from_docx` embed the
  title/description helpers (lines 107-131);
* `generate_html_content` embeds the HTML fragment generator (lines 219-230);
* the blogs index page is modelled as a listing container together with the
  ordered list of blog-card anchors (`Card`, `IndexPage`), and
  `update_blogs_index` / `update_blog_in_index` embed the index insert and
  update operations (lines 133-217); file writes become returned values;
* HTML pages touched by `update_html_file` (lines 274-325) are modelled by a
  DOM tree (`Node`); BeautifulSoup's depth-first `find` is `findInList`,
  and the in-place mutations become pure tree rewrites.
-/

namespace BlogUpdater

/-- Python whitespace, as used by `str.strip()` and `str.split()`
(ASCII subset; exotic Unicode spaces are not modelled). -/
def pyIsSpace (c : Char) : Bool :=
  c == ' ' || c == '\t' || c == '\n' || c == '\r' || c == '\x0b' || c == '\x0c'

/-- Python `s.strip()` on the character list. -/
def pyStripList (cs : List Char) : List Char :=
  ((cs.dropWhile pyIsSpace).reverse.dropWhile pyIsSpace).reverse

/-- Python `s.strip()`. -/
def pyStrip (s : String) : String :=
  String.mk (pyStripList s.data)

/-- Helper for `pyWords`: accumulates the current (reversed) token. -/
def pyWordsAux : List Char → List Char → List (List Char)
  | cur, [] => if cur.isEmpty then [] else [cur.reverse]
  | cur, c :: cs =>
    if pyIsSpace c then
      if cur.isEmpty then pyWordsAux [] cs else cur.reverse :: pyWordsAux [] cs
    else
      pyWordsAux (c :: cur) cs

/-- Python `s.split()` with no argument: maximal runs of non-whitespace. -/
def pyWords (s : String) : List String :=
  (pyWordsAux [] s.data).map String.mk

/-- A run of a docx paragraph: its text and whether it is marked bold
(`bold = false` also covers python-docx's `None`, which is falsy in the
`all(run.bold ...)` check). -/
structure TextRun where
  text : String
  bold : Bool
deriving DecidableEq

/-- A docx paragraph: its style name and its runs. -/
structure Para where
  styleName : String
  runs : List TextRun
deriving DecidableEq

/-- `para.text`: the docx paragraph text, the concatenation of its runs'
texts. -/
def Para.text (p : Para) : String :=
  String.join (p.runs.map (fun r => r.text))

/-- A classified content item produced by `extract_content_from_docx`:
either `{'type': 'heading', 'level': l, 'text': t}` or
`{'type': 'paragraph', 'text': t}`.  The level is an `Int` because it is
produced by Python's `int(...)`. -/
inductive ContentItem where
  | heading (level : Int) (text : String)
  | paragraph (text : String)
deriving DecidableEq

/-- `pat` occurs as a contiguous substring: Python's `pat in s` on the
character lists. -/
def listContainsSub (pat : List Char) : List Char → Bool
  | [] => pat.isEmpty
  | c :: cs => pat.isPrefixOf (c :: cs) || listContainsSub pat cs

/-- Python's `'Heading' in style`. -/
def containsHeading (style : String) : Bool :=
  listContainsSub "Heading".data style.data

/-- No two consecutive underscores (part of Python's integer-literal
grammar for `int`). -/
def noDoubleUS : List Char → Bool
  | [] => true
  | [_] => true
  | a :: b :: rest => !(a == '_' && b == '_') && noDoubleUS (b :: rest)

/-- Numeric value of a digit string (underscores already filtered out). -/
def digitsVal (cs : List Char) : Nat :=
  List.foldl (fun n c => 10 * n + (c.toNat - 48)) 0 cs

/-- Python `int` on an unsigned ASCII token: digits with optional single
underscores strictly between digits; `none` models `ValueError`.
(Non-ASCII digits are not modelled.) -/
def pyDigitsVal (cs : List Char) : Option Nat :=
  if cs ≠ [] ∧ (∀ c ∈ cs, c.isDigit ∨ c = '_') ∧ cs.head? ≠ some '_' ∧
      cs.getLast? ≠ some '_' ∧ noDoubleUS cs = true then
    some (digitsVal (cs.filter (fun c => c.isDigit)))
  else
    none

/-- Python `int(s)` on a whitespace-free token: optional sign followed by
digits; `none` models the `ValueError` exception. -/
def pyInt (s : String) : Option Int :=
  match s.data with
  | '+' :: rest => (pyDigitsVal rest).map (fun n => (n : Int))
  | '-' :: rest => (pyDigitsVal rest).map (fun n => -(n : Int))
  | cs => (pyDigitsVal cs).map (fun n => (n : Int))

/-- Python's `style.split()[-1]`: last whitespace-separated token (the code
only reaches this when `style` contains `'Heading'`, hence has a token,
so the default is never used). -/
def lastToken (style : String) : String :=
  (pyWords style).getLastD ""

/-- Classification of one non-empty, non-title paragraph
(`blog_updater.py` lines 79-103).  `none` models the `ValueError` raised
by `int(style.split()[-1])` when the style name ends in a digit but its
last token is not an integer literal. -/
def classify_para (p : Para) : Option ContentItem :=
  let text := pyStrip p.text
  let style := p.styleName
  if containsHeading style then
    -- level = int(style.split()[-1]) if style[-1].isdigit() else 1
    if (style.data.getLastD ' ').isDigit then
      match pyInt (lastToken style) with
      | some level => some (ContentItem.heading level text)
      | none => none
    else
      some (ContentItem.heading 1 text)
  else
    -- is_bold = all(run.bold for run in para.runs if run.text.strip())
    let is_bold := (p.runs.filter (fun r => pyStrip r.text != "")).all (fun r => r.bold)
    if is_bold ∧ 0 < p.runs.length then
      some (ContentItem.heading 3 text)
    else
      some (ContentItem.paragraph text)

/-- The loop of `extract_content_from_docx` (lines 69-104); the flag is
`is_first_line`; `none` models an uncaught `ValueError`. -/
def extractLoop : Bool → List Para → Option (List ContentItem)
  | _, [] => some []
  | is_first, p :: ps =>
    if pyStrip p.text = "" then
      extractLoop is_first ps
    else if is_first then
      -- skip the first non-empty line: it is used as the title
      extractLoop false ps
    else
      match classify_para p with
      | none => none
      | some item => (extractLoop is_first ps).map (fun rest => item :: rest)

/-- `extract_content_from_docx` (lines 65-105) on the document's
paragraphs. -/
def extract_content_from_docx (paragraphs : List Para) : Option (List ContentItem) :=
  extractLoop true paragraphs

/-- `get_blog_title_from_docx` (lines 107-116): the first non-empty
(stripped) paragraph text, else "Untitled Blog". -/
def get_blog_title_from_docx : List Para → String
  | [] => "Untitled Blog"
  | p :: ps =>
    if pyStrip p.text ≠ "" then pyStrip p.text
    else get_blog_title_from_docx ps

/-- The loop of `get_blog_description_from_docx` (lines 122-130);
the accumulator is `lines_found`. -/
def descLoop : Nat → List Para → String
  | _, [] => "Click to read more..."
  | lines_found, p :: ps =>
    let text := pyStrip p.text
    if text ≠ "" then
      if lines_found + 1 = 2 then
        -- return (text[:150] + "...") if len(text) > 150 else text
        if 150 < text.data.length then String.mk (text.data.take 150) ++ "..." else text
      else
        descLoop (lines_found + 1) ps
    else
      descLoop lines_found ps

/-- `get_blog_description_from_docx` (lines 118-131). -/
def get_blog_description_from_docx (paragraphs : List Para) : String :=
  descLoop 0 paragraphs

/-- `generate_html_content` (lines 219-230): fold over the items,
appending one fixed-format line per item. -/
def generate_html_content (content : List ContentItem) : String :=
  content.foldl
    (fun html_content item =>
      match item with
      | ContentItem.heading level text =>
        html_content ++ "    <h" ++ toString level ++ ">" ++ text ++ "</h"
          ++ toString level ++ ">\n"
      | ContentItem.paragraph text =>
        html_content ++ "    <p>" ++ text ++ "</p>\n")
    ""

/-! ### Blogs index model (`update_blogs_index`, `update_blog_in_index`) -/

/-- Python `html_file.replace('blogs/', '')`: delete every occurrence of
`blogs/`. -/
def removeBlogsDir : List Char → List Char
  | 'b' :: 'l' :: 'o' :: 'g' :: 's' :: '/' :: rest => removeBlogsDir rest
  | c :: cs => c :: removeBlogsDir cs
  | [] => []

/-- The `link_path` computed at lines 154 and 193. -/
def linkPathOf (html_file : String) : String :=
  String.mk (removeBlogsDir html_file.data)

/-- One `<a class="blog-card">` entry of `blogs/index.html`: its `href`,
the string of its `<h3>` child when it has one (`card.find('h3')`), and
its `<p>` description. -/
structure Card where
  href : String
  titleTag : Option String
  desc : String
deriving DecidableEq

/-- The blogs index page, as the script sees it: whether the
`<div class="blog-list">` container is present, and the blog-card anchors
in document order (all inside the listing container). The surrounding
file-existence check (lines 138-140) is I/O glue and is not modelled. -/
structure IndexPage where
  hasBlogList : Bool
  cards : List Card
deriving DecidableEq

/-- `update_blogs_index` (lines 133-177): build the new card and append it
to the `blog-list` container; the returned flag is the function's
`True`/`False` result, the returned page the file contents after the call.
There is no duplicate check. -/
def update_blogs_index (idx : IndexPage) (html_file blog_title blog_description : String) :
    Bool × IndexPage :=
  if idx.hasBlogList = false then
    -- "Error: Could not find 'blog-list' div" — return False, no write
    (false, idx)
  else
    let link_path := linkPathOf html_file
    let new_card : Card := { href := link_path, titleTag := some blog_title, desc := blog_description }
    (true, { idx with cards := idx.cards ++ [new_card] })

/-- Python `href.endswith(link_path) or href == link_path` (line 201). -/
def hrefMatches (href link_path : String) : Bool :=
  link_path.data.isSuffixOf href.data || href == link_path

/-- The loop of `update_blog_in_index` (lines 199-210): find the first
matching card that has an `<h3>`, set its string; `none` when the loop
falls through (no write). A matching card without `<h3>` is skipped, as
in the source. -/
def updateCardLoop (link_path new_title : String) : List Card → Option (List Card)
  | [] => none
  | card :: rest =>
    if hrefMatches card.href link_path then
      match card.titleTag with
      | some _ => some ({ card with titleTag := some new_title } :: rest)
      | none => (updateCardLoop link_path new_title rest).map (fun r => card :: r)
    else
      (updateCardLoop link_path new_title rest).map (fun r => card :: r)

/-- `update_blog_in_index` (lines 179-217): the returned flag is the
function's result, the returned page the file contents after the call
(unchanged when no card was updated, since the file is only written inside
the loop). -/
def update_blog_in_index (idx : IndexPage) (html_file new_title : String) :
    Bool × IndexPage :=
  let link_path := linkPathOf html_file
  match updateCardLoop link_path new_title idx.cards with
  | some cards2 => (true, { idx with cards := cards2 })
  | none => (false, idx)

/-! ### DOM model (`update_html_file`) -/

/-- A DOM node: an element with tag name, class list and children, or a
text node. Attributes other than `class` play no role in
`update_html_file` and are not modelled. -/
inductive Node where
  | elem (tag : String) (classes : List String) (children : List Node)
  | text (s : String)

/-- Whether a node is an element (`element.name` is truthy, line 318). -/
def Node.isElem : Node → Bool
  | .elem _ _ _ => true
  | .text _ => false

/-- The children of a node (a text node has none). -/
def Node.childrenOf : Node → List Node
  | .elem _ _ ch => ch
  | .text _ => []

mutual

/-- BeautifulSoup `tag.find(pred)` restricted to one node: test the node
itself, then its descendants, depth-first. -/
def findInNode (pred : Node → Bool) : Node → Option Node
  | .text s => if pred (.text s) then some (.text s) else none
  | .elem t c ch =>
    if pred (.elem t c ch) then some (.elem t c ch)
    else findInList pred ch

/-- BeautifulSoup `find` over a list of sibling nodes, depth-first,
left to right. `soup.find(...)` is `findInList` on the document's
top-level nodes; `container.find(...)` is `findInList` on the
container's children. -/
def findInList (pred : Node → Bool) : List Node → Option Node
  | [] => none
  | n :: rest =>
    match findInNode pred n with
    | some m => some m
    | none => findInList pred rest

end

/-- `soup.find('div', class_='blog-container')`'s predicate. -/
def isContainer : Node → Bool
  | .elem t cls _ => t == "div" && cls.contains "blog-container"
  | _ => false

/-- `blog_container.find('p', class_='blog-date')`'s predicate. -/
def isBlogDate : Node → Bool
  | .elem t cls _ => t == "p" && cls.contains "blog-date"
  | _ => false

/-- `blog_container.find('h1')`'s predicate. -/
def isH1 : Node → Bool
  | .elem t _ _ => t == "h1"
  | _ => false

mutual

/-- `title.string = blog_title` applied to the first `h1` found
depth-first inside one node (its contents are replaced by a single text
node); `none` when the node contains no `h1`. -/
def setH1InNode (blog_title : String) : Node → Option Node
  | .text _ => none
  | .elem t c ch =>
    if isH1 (.elem t c ch) then some (.elem t c [.text blog_title])
    else (setH1InList blog_title ch).map (fun ch2 => .elem t c ch2)

/-- `setH1InNode` over sibling nodes, replacing only the first match. -/
def setH1InList (blog_title : String) : List Node → Option (List Node)
  | [] => none
  | n :: rest =>
    match setH1InNode blog_title n with
    | some n2 => some (n2 :: rest)
    | none => (setH1InList blog_title rest).map (fun r => n :: r)

end

/-- Lines 287-294: update the string of the container's first `h1`, or
insert a fresh `h1` at position 0 when there is none, returning the
container's new child list. -/
def updateFirstH1 (blog_title : String) (children : List Node) : List Node :=
  match setH1InList blog_title children with
  | some ch2 => ch2
  | none => Node.elem "h1" [] [Node.text blog_title] :: children

mutual

/-- Replace the children of the first node matching `pred` (depth-first);
the boolean reports whether a replacement happened. Everything outside
the replaced node is returned unchanged. -/
def replChildrenInNode (pred : Node → Bool) (newCh : List Node) : Node → Node × Bool
  | .text s => (.text s, false)
  | .elem t c ch =>
    if pred (.elem t c ch) then (.elem t c newCh, true)
    else
      let r := replChildrenInList pred newCh ch
      (.elem t c r.1, r.2)

/-- `replChildrenInNode` over sibling nodes, first match only. -/
def replChildrenInList (pred : Node → Bool) (newCh : List Node) : List Node → List Node × Bool
  | [] => ([], false)
  | n :: rest =>
    let rn := replChildrenInNode pred newCh n
    if rn.2 then (rn.1 :: rest, true)
    else
      let rr := replChildrenInList pred newCh rest
      (n :: rr.1, rr.2)

end

/-- `update_html_file` (lines 274-325). The page is the parsed file (its
top-level nodes); `fragmentNodes` is the parse of `content_html`
(lines 316-319 append its element children, skipping text nodes);
`none` models `return False` with no write, `some page2` a successful
write of the mutated document. -/
def update_html_file (page : List Node) (fragmentNodes : List Node) (blog_title : String) :
    Option (List Node) :=
  match findInList isContainer page with
  | none =>
    -- "Error: Could not find 'blog-container' div" — no write
    none
  | some container =>
    -- lines 287-294: find/update the h1 (or insert one at index 0)
    let ch1 := updateFirstH1 blog_title container.childrenOf
    -- line 297: date = blog_container.find('p', class_='blog-date')
    let date := findInList isBlogDate ch1
    -- line 300: blog_container.clear()
    let cleared : List Node := []
    -- lines 303-309: title = blog_container.find('h1') on the cleared
    -- container (always None), so a fresh h1 is created and appended
    let ch2 :=
      match findInList isH1 cleared with
      | some t => cleared ++ [t]
      | none => cleared ++ [Node.elem "h1" [] [Node.text blog_title]]
    -- lines 312-313: add back date if it existed
    let ch3 :=
      match date with
      | some d => ch2 ++ [d]
      | none => ch2
    -- lines 316-319: append the fragment's element nodes
    let ch4 := ch3 ++ fragmentNodes.filter Node.isElem
    -- lines 322-323: write the mutated soup back
    some (replChildrenInList isContainer ch4 page).1

/-- The target file's contents after running `update_html_file`: unchanged
when the function returned `False` (no write happens on that path). -/
def update_html_file_run (page : List Node) (fragmentNodes : List Node) (blog_title : String) :
    List Node :=
  match update_html_file page fragmentNodes blog_title with
  | some page2 => page2
  | none => page

/-- The parse of `generate_html_content content` back into DOM nodes, as
`update_html_file` does at line 316: each generated line yields one
element (the generator emits only well-formed `<hN>`/`<p>` elements and
whitespace). -/
def fragmentNodesOf (content : List ContentItem) : List Node :=
  content.map fun item =>
    match item with
    | ContentItem.heading level text => Node.elem ("h" ++ toString level) [] [Node.text text]
    | ContentItem.paragraph text => Node.elem "p" [] [Node.text text]

/-- The update branch of `main` (mode '2', lines 372-400): read title and
content from the document, update the page, and only if the page update
succeeded, update the index entry's title. `none` models the uncaught
exception path (the `except` clause at line 404); otherwise the result is
the written page (if any), the index-update flag, and the index contents
after the run. -/
def run_update_mode (paragraphs : List Para) (page : List Node) (idx : IndexPage)
    (html_file : String) : Option (Option (List Node) × Bool × IndexPage) :=
  let blog_title := get_blog_title_from_docx paragraphs
  match extract_content_from_docx paragraphs with
  | none => none
  | some content =>
    match update_html_file page (fragmentNodesOf content) blog_title with
    | none =>
      -- "Failed to update blog file." — index update not attempted
      some (none, false, idx)
    | some page2 =>
      let r := update_blog_in_index idx html_file blog_title
      some (some page2, r.1, r.2)

/-! ### Theorems -/

/-- The per-item rendering asserted by the spec for the word-processor
pipeline: each `Heading(level)` renders as `<h{level}>text</h{level}>`,
each paragraph as `<p>text</p>` (the generator wraps every item in a fixed
four-space indent and a newline). -/
def renderItemSpec : ContentItem → String
  | ContentItem.heading level text =>
    "    " ++ ("<h" ++ toString level ++ ">" ++ text ++ "</h" ++ toString level ++ ">") ++ "\n"
  | ContentItem.paragraph text =>
    "    " ++ ("<p>" ++ text ++ "</p>") ++ "\n"

/-- C1: for a paragraph whose style name does not contain 'Heading': with
at least one run, if every run with non-empty text is bold the paragraph
is classified as a level-3 heading; if some non-empty run is not bold it
is classified as a normal paragraph (never a heading). -/
theorem claim_C1 (p : Para) (hstyle : containsHeading p.styleName = false) :
    (p.runs ≠ [] → (∀ r ∈ p.runs, pyStrip r.text ≠ "" → r.bold = true) →
      classify_para p = some (ContentItem.heading 3 (pyStrip p.text))) ∧
    ((∃ r ∈ p.runs, pyStrip r.text ≠ "" ∧ r.bold = false) →
      classify_para p = some (ContentItem.paragraph (pyStrip p.text))) := by
  constructor
  · intro hne hb
    have hbold : ((p.runs.filter (fun r => pyStrip r.text != "")).all (fun r => r.bold)) = true := by
      simp only [List.all_eq_true, List.mem_filter]
      intro r hr
      exact hb r hr.1 (by simpa using hr.2)
    simp [classify_para, hstyle, hbold, List.length_pos.mpr hne]
  · rintro ⟨r, hr, hne, hb⟩
    have hbold : ((p.runs.filter (fun r => pyStrip r.text != "")).all (fun r => r.bold)) = false := by
      rw [List.all_eq_false]
      exact ⟨r, List.mem_filter.mpr ⟨hr, by simpa using hne⟩, by simp [hb]⟩
    simp [classify_para, hstyle, hbold]

/-- C1 witness: `[bold "A", bold "B"]` is a level-3 heading,
`[bold "A", normal "b"]` is a normal paragraph. -/
theorem claim_C1_witness :
    classify_para ⟨"Normal", [⟨"A", true⟩, ⟨"B", true⟩]⟩ = some (ContentItem.heading 3 "AB") ∧
    classify_para ⟨"Normal", [⟨"A", true⟩, ⟨"b", false⟩]⟩ = some (ContentItem.paragraph "Ab") :=
  ⟨(claim_C1 ⟨"Normal", [⟨"A", true⟩, ⟨"B", true⟩]⟩ (by decide)).1 (by decide) (by decide),
   (claim_C1 ⟨"Normal", [⟨"A", true⟩, ⟨"b", false⟩]⟩ (by decide)).2 (by decide)⟩

/-- C2: the fragment generator is a deterministic, stateless map over the
classified sequence: its output is exactly the concatenation, in input
order, of one rendering per item (`<h{level}>text</h{level}>` for
headings, `<p>text</p>` for paragraphs, each wrapped in the generator's
fixed indent and newline), and regenerating from the same sequence gives
identical output. -/
theorem claim_C2 (content : List ContentItem) :
    generate_html_content content = String.join (content.map renderItemSpec) ∧
    generate_html_content content = generate_html_content content := by
  refine ⟨?_, rfl⟩
  suffices h : ∀ (l : List ContentItem) (acc : String),
      List.foldl
        (fun html_content item =>
          match item with
          | ContentItem.heading level text =>
            html_content ++ "    <h" ++ toString level ++ ">" ++ text ++ "</h"
              ++ toString level ++ ">\n"
          | ContentItem.paragraph text =>
            html_content ++ "    <p>" ++ text ++ "</p>\n")
        acc l = acc ++ String.join (l.map renderItemSpec) by
    simpa [generate_html_content] using h content ""
  intro l
  induction l with
  | nil => intro acc; apply String.ext; simp
  | cons item l ih =>
    intro acc
    cases item with
    | heading level text =>
      simp only [List.foldl_cons]
      rw [ih]
      apply String.ext
      simp [renderItemSpec]
    | paragraph text =>
      simp only [List.foldl_cons]
      rw [ih]
      apply String.ext
      simp [renderItemSpec]

/-- C3: when the document has a (first) non-empty paragraph, the blog
title is its stripped text, and the extracted content is the
classification of the strictly later paragraphs only — the title
paragraph is consumed, never re-emitted as content. -/
theorem claim_C3 (ps : List Para) (p : Para)
    (h : ps.find? (fun q => pyStrip q.text != "") = some p) :
    get_blog_title_from_docx ps = pyStrip p.text ∧
    extract_content_from_docx ps =
      extractLoop false ((ps.dropWhile (fun q => pyStrip q.text == "")).tail) := by
  induction ps with
  | nil => simp at h
  | cons q ps ih =>
    by_cases hq : pyStrip q.text = ""
    · have h2 : ps.find? (fun q => pyStrip q.text != "") = some p := by
        simpa [List.find?_cons, hq] using h
      have := ih h2
      constructor
      · simpa [get_blog_title_from_docx, hq] using this.1
      · have hextract := this.2
        simpa [extract_content_from_docx, extractLoop, hq] using hextract
    · have hpq : p = q := by
        have := h
        simp [List.find?_cons, hq] at this
        exact this.symm
      subst hpq
      constructor
      · simp [get_blog_title_from_docx, hq]
      · simp [extract_content_from_docx, extractLoop, hq, List.dropWhile_cons]

/-- C3 witness: a blank paragraph, then "Title", then "Body": the title is
consumed and only "Body" remains as content. -/
theorem claim_C3_witness :
    get_blog_title_from_docx
        [⟨"Normal", [⟨"  ", true⟩]⟩, ⟨"Normal", [⟨" Title ", false⟩]⟩,
         ⟨"Normal", [⟨"Body", false⟩]⟩]
      = pyStrip (Para.text ⟨"Normal", [⟨" Title ", false⟩]⟩) ∧
    extract_content_from_docx
        [⟨"Normal", [⟨"  ", true⟩]⟩, ⟨"Normal", [⟨" Title ", false⟩]⟩,
         ⟨"Normal", [⟨"Body", false⟩]⟩]
      = extractLoop false
          (([⟨"Normal", [⟨"  ", true⟩]⟩, ⟨"Normal", [⟨" Title ", false⟩]⟩,
             (⟨"Normal", [⟨"Body", false⟩]⟩ : Para)].dropWhile
              (fun q => pyStrip q.text == "")).tail) :=
  claim_C3
    [⟨"Normal", [⟨"  ", true⟩]⟩, ⟨"Normal", [⟨" Title ", false⟩]⟩,
     ⟨"Normal", [⟨"Body", false⟩]⟩]
    ⟨"Normal", [⟨" Title ", false⟩]⟩ (by decide)

/-- C5 counterexample: the style name "Heading2" contains 'Heading' and
trails with the numeral 2, but the code raises `ValueError` in
`int(style.split()[-1])` (modelled as `none`) instead of classifying the
paragraph as a heading of level 2. -/
theorem claim_C5_cex :
    containsHeading "Heading2" = true ∧
    classify_para ⟨"Heading2", [⟨"hi", false⟩]⟩ = none := by decide

/-- C5 (amended): for a paragraph whose style name contains 'Heading': if
the style name's last character is not a digit the level defaults to 1;
if the last character is a digit and the last whitespace-separated token
of the style name parses as a Python integer, that integer is the level;
if the last character is a digit but the token does not parse (e.g.
"Heading2"), extraction fails with an error instead of classifying. -/
theorem claim_C5_amended (p : Para) (h : containsHeading p.styleName = true) :
    ((p.styleName.data.getLastD ' ').isDigit = false →
      classify_para p = some (ContentItem.heading 1 (pyStrip p.text))) ∧
    (∀ level : Int, (p.styleName.data.getLastD ' ').isDigit = true →
      pyInt (lastToken p.styleName) = some level →
      classify_para p = some (ContentItem.heading level (pyStrip p.text))) ∧
    ((p.styleName.data.getLastD ' ').isDigit = true →
      pyInt (lastToken p.styleName) = none →
      classify_para p = none) := by
  refine ⟨?_, ?_, ?_⟩
  · intro hd
    simp only [List.getLastD_eq_getLast?] at hd
    simp [classify_para, h, hd]
  · intro level hd hp
    simp only [List.getLastD_eq_getLast?] at hd
    simp [classify_para, h, hd, hp]
  · intro hd hp
    simp only [List.getLastD_eq_getLast?] at hd
    simp [classify_para, h, hd, hp]

/-- C5 witness: "Heading" gives level 1, "Heading 2" gives level 2, and
"Heading2" aborts extraction. -/
theorem claim_C5_witness :
    classify_para ⟨"Heading", [⟨"x", false⟩]⟩ = some (ContentItem.heading 1 "x") ∧
    classify_para ⟨"Heading 2", [⟨"x", false⟩]⟩ = some (ContentItem.heading 2 "x") ∧
    classify_para ⟨"Heading2", [⟨"x", false⟩]⟩ = none :=
  ⟨(claim_C5_amended ⟨"Heading", [⟨"x", false⟩]⟩ (by decide)).1 (by decide),
   (claim_C5_amended ⟨"Heading 2", [⟨"x", false⟩]⟩ (by decide)).2.1 2 (by decide) (by decide),
   (claim_C5_amended ⟨"Heading2", [⟨"x", false⟩]⟩ (by decide)).2.2 (by decide) (by decide)⟩

/-- Helper for C6: once one non-empty line has been counted, the
description is the (possibly truncated) next non-empty line, else the
fallback. -/
theorem descLoop_one (ps : List Para) :
    descLoop 1 ps =
      match (ps.filter (fun q => pyStrip q.text != "")).head? with
      | some p =>
        if 150 < (pyStrip p.text).data.length
        then String.mk ((pyStrip p.text).data.take 150) ++ "..."
        else pyStrip p.text
      | none => "Click to read more..." := by
  induction ps with
  | nil => rfl
  | cons q ps ih =>
    by_cases hq : pyStrip q.text = ""
    · simpa [descLoop, List.filter_cons, hq] using ih
    · simp [descLoop, List.filter_cons, hq]

/-- C6: the description is the stripped text of the second non-empty
paragraph, truncated to 150 characters plus an ellipsis when longer; with
no second non-empty paragraph the fixed fallback string is returned. -/
theorem claim_C6 (ps : List Para) :
    (∀ p, (ps.filter (fun q => pyStrip q.text != "")).tail.head? = some p →
      get_blog_description_from_docx ps =
        (if 150 < (pyStrip p.text).data.length
         then String.mk ((pyStrip p.text).data.take 150) ++ "..."
         else pyStrip p.text)) ∧
    ((ps.filter (fun q => pyStrip q.text != "")).tail.head? = none →
      get_blog_description_from_docx ps = "Click to read more...") := by
  induction ps with
  | nil => exact ⟨fun p hp => by simp at hp, fun _ => rfl⟩
  | cons q ps ih =>
    by_cases hq : pyStrip q.text = ""
    · have hfil : (q :: ps).filter (fun r => pyStrip r.text != "")
          = ps.filter (fun r => pyStrip r.text != "") := by
        simp [List.filter_cons, hq]
      have hdesc : get_blog_description_from_docx (q :: ps)
          = get_blog_description_from_docx ps := by
        simp [get_blog_description_from_docx, descLoop, hq]
      rw [hfil, hdesc]
      exact ih
    · have hfil : (q :: ps).filter (fun r => pyStrip r.text != "")
          = q :: ps.filter (fun r => pyStrip r.text != "") := by
        simp [List.filter_cons, hq]
      have hdesc : get_blog_description_from_docx (q :: ps) = descLoop 1 ps := by
        simp [get_blog_description_from_docx, descLoop, hq]
      rw [hfil, hdesc, descLoop_one]
      constructor
      · intro p hp
        simp only [List.tail_cons] at hp
        rw [hp]
      · intro hp
        simp only [List.tail_cons] at hp
        rw [hp]

/-- C6 witness: with a second non-empty line the description is that
line; with only a title line it is the fallback string. -/
theorem claim_C6_witness :
    get_blog_description_from_docx
        [⟨"Normal", [⟨"Title", false⟩]⟩, ⟨"Normal", [⟨" Second ", false⟩]⟩] = "Second" ∧
    get_blog_description_from_docx [⟨"Normal", [⟨"Title", false⟩]⟩] = "Click to read more..." :=
  ⟨(claim_C6 [⟨"Normal", [⟨"Title", false⟩]⟩, ⟨"Normal", [⟨" Second ", false⟩]⟩]).1
      ⟨"Normal", [⟨" Second ", false⟩]⟩ (by decide),
   (claim_C6 [⟨"Normal", [⟨"Title", false⟩]⟩]).2 (by decide)⟩

/-- C10: a document with no non-empty paragraph yields the fixed fallback
title "Untitled Blog". -/
theorem claim_C10 (ps : List Para) (h : ∀ p ∈ ps, pyStrip p.text = "") :
    get_blog_title_from_docx ps = "Untitled Blog" := by
  induction ps with
  | nil => rfl
  | cons q ps ih =>
    have hq := h q (by simp)
    simp only [get_blog_title_from_docx, hq]
    simpa using ih (fun p hp => h p (List.mem_cons_of_mem _ hp))

/-- C10 witness: a document with a single whitespace-only paragraph. -/
theorem claim_C10_witness :
    get_blog_title_from_docx [⟨"Normal", [⟨"  ", false⟩]⟩] = "Untitled Blog" :=
  claim_C10 [⟨"Normal", [⟨"  ", false⟩]⟩] (by decide)

/-- C4 counterexample: inserting the same link target twice is accepted
both times — the second call also returns `True` and appends a second,
duplicate entry node, because `update_blogs_index` performs no duplicate
check. -/
theorem claim_C4_cex :
    update_blogs_index (update_blogs_index ⟨true, []⟩ "blogs/a.html" "T" "D").2
        "blogs/a.html" "T" "D"
      = (true, ⟨true, [⟨"a.html", some "T", "D"⟩, ⟨"a.html", some "T", "D"⟩]⟩) := by
  decide

/-- C4 (amended): when the listing container is present, insertion
unconditionally appends the new entry node (link, title, description) as
the last child — there is no duplicate check, so repeating an insertion
for the same link target duplicates the entry; when the container is
missing the insertion fails and the index is unchanged. -/
theorem claim_C4_amended (idx : IndexPage) (html_file blog_title blog_description : String) :
    (idx.hasBlogList = true →
      update_blogs_index idx html_file blog_title blog_description =
        (true, ⟨true,
          idx.cards ++ [⟨linkPathOf html_file, some blog_title, blog_description⟩]⟩)) ∧
    (idx.hasBlogList = false →
      update_blogs_index idx html_file blog_title blog_description = (false, idx)) := by
  obtain ⟨b, cards⟩ := idx
  constructor
  · intro h
    simp only at h
    subst h
    simp [update_blogs_index]
  · intro h
    simp only at h
    subst h
    simp [update_blogs_index]

/-- C4 witness: a fresh insertion appends the card; with the container
missing nothing changes. -/
theorem claim_C4_witness :
    update_blogs_index ⟨true, [⟨"b.html", some "B", "DB"⟩]⟩ "blogs/a.html" "T" "D"
      = (true, ⟨true, [⟨"b.html", some "B", "DB"⟩, ⟨"a.html", some "T", "D"⟩]⟩) ∧
    update_blogs_index ⟨false, []⟩ "blogs/a.html" "T" "D" = (false, ⟨false, []⟩) :=
  ⟨(claim_C4_amended ⟨true, [⟨"b.html", some "B", "DB"⟩]⟩ "blogs/a.html" "T" "D").1 rfl,
   (claim_C4_amended ⟨false, []⟩ "blogs/a.html" "T" "D").2 rfl⟩

/-- Helper for C9: the update loop finds nothing when no card's href
matches the link path. -/
theorem updateCardLoop_eq_none (lp t : String) (cards : List Card)
    (h : ∀ c ∈ cards, hrefMatches c.href lp = false) :
    updateCardLoop lp t cards = none := by
  induction cards with
  | nil => rfl
  | cons c cs ih =>
    have hc := h c (by simp)
    have hrest := ih (fun c2 h2 => h c2 (List.mem_cons_of_mem _ h2))
    simp [updateCardLoop, hc, hrest]

/-- Helper for C9: the update loop rewrites exactly the title of the
first matching card that has an `<h3>`, and touches nothing else. -/
theorem updateCardLoop_eq_some (lp t : String) (pre : List Card) (c : Card) (post : List Card)
    (hc : hrefMatches c.href lp = true) (ht : c.titleTag.isSome = true)
    (hpre : ∀ c2 ∈ pre, hrefMatches c2.href lp = true → c2.titleTag = none) :
    updateCardLoop lp t (pre ++ c :: post)
      = some (pre ++ { c with titleTag := some t } :: post) := by
  induction pre with
  | nil =>
    obtain ⟨x, hx⟩ := Option.isSome_iff_exists.mp ht
    simp [updateCardLoop, hc, hx]
  | cons d pre ih =>
    have hrest := ih (fun c2 h2 hm => hpre c2 (List.mem_cons_of_mem _ h2) hm)
    by_cases hd : hrefMatches d.href lp = true
    · have hdn : d.titleTag = none := hpre d (by simp) hd
      simp [updateCardLoop, hd, hdn, hrest]
    · simp only [Bool.not_eq_true] at hd
      simp [updateCardLoop, hd, hrest]

/-- C9: updating an index entry rewrites only the matching entry's title,
leaving its href and description and all other entries unchanged; with no
matching entry the operation returns failure and the index is unchanged;
and in the main update flow this failure is non-fatal — the page write
still succeeds. -/
theorem claim_C9 (idx : IndexPage) (html_file new_title : String) :
    ((∀ c ∈ idx.cards, hrefMatches c.href (linkPathOf html_file) = false) →
      update_blog_in_index idx html_file new_title = (false, idx)) ∧
    (∀ pre c post, idx.cards = pre ++ c :: post →
      hrefMatches c.href (linkPathOf html_file) = true →
      c.titleTag.isSome = true →
      (∀ c2 ∈ pre, hrefMatches c2.href (linkPathOf html_file) = true → c2.titleTag = none) →
      update_blog_in_index idx html_file new_title =
        (true, ⟨idx.hasBlogList, pre ++ { c with titleTag := some new_title } :: post⟩)) ∧
    (∀ paragraphs page content page2,
      extract_content_from_docx paragraphs = some content →
      update_html_file page (fragmentNodesOf content)
          (get_blog_title_from_docx paragraphs) = some page2 →
      (∀ c ∈ idx.cards, hrefMatches c.href (linkPathOf html_file) = false) →
      run_update_mode paragraphs page idx html_file = some (some page2, false, idx)) := by
  refine ⟨?_, ?_, ?_⟩
  · intro h
    simp [update_blog_in_index, updateCardLoop_eq_none _ new_title _ h]
  · intro pre c post hcards hc ht hpre
    simp [update_blog_in_index, hcards, updateCardLoop_eq_some _ new_title pre c post hc ht hpre]
  · intro paragraphs page content page2 hextract hupd h
    simp [run_update_mode, hextract, hupd, update_blog_in_index,
      updateCardLoop_eq_none _ (get_blog_title_from_docx paragraphs) _ h]

/-- C9 witness: the second card matches and only its title changes; a
non-matching index is returned unchanged with failure; and the page write
succeeds even though the index has no matching entry. -/
theorem claim_C9_witness :
    update_blog_in_index ⟨true, [⟨"b.html", some "B", "DB"⟩, ⟨"a.html", some "Old", "DA"⟩]⟩
        "blogs/a.html" "New"
      = (true, ⟨true, [⟨"b.html", some "B", "DB"⟩, ⟨"a.html", some "New", "DA"⟩]⟩) ∧
    update_blog_in_index ⟨true, [⟨"b.html", some "B", "DB"⟩]⟩ "blogs/a.html" "New"
      = (false, ⟨true, [⟨"b.html", some "B", "DB"⟩]⟩) ∧
    run_update_mode
        [⟨"Normal", [⟨"Title", false⟩]⟩, ⟨"Normal", [⟨"Body", false⟩]⟩]
        [Node.elem "div" ["blog-container"] []] ⟨true, []⟩ "blogs/a.html"
      = some (some
          [Node.elem "div" ["blog-container"]
            [Node.elem "h1" [] [Node.text "Title"],
             Node.elem "p" [] [Node.text "Body"]]], false, ⟨true, []⟩) :=
  ⟨(claim_C9 ⟨true, [⟨"b.html", some "B", "DB"⟩, ⟨"a.html", some "Old", "DA"⟩]⟩
      "blogs/a.html" "New").2.1 [⟨"b.html", some "B", "DB"⟩] ⟨"a.html", some "Old", "DA"⟩ []
      (by decide) (by decide) (by decide) (by decide),
   (claim_C9 ⟨true, [⟨"b.html", some "B", "DB"⟩]⟩ "blogs/a.html" "New").1 (by decide),
   (claim_C9 ⟨true, []⟩ "blogs/a.html" "New").2.2
      [⟨"Normal", [⟨"Title", false⟩]⟩, ⟨"Normal", [⟨"Body", false⟩]⟩]
      [Node.elem "div" ["blog-container"] []]
      [ContentItem.paragraph "Body"] _ (by decide) rfl (by decide)⟩

/-- C7: when the target page has no `blog-container` div, the update
fails (`return False`, modelling `ContainerNotFound`) and the file is
not written — its contents are unchanged. -/
theorem claim_C7 (page fragmentNodes : List Node) (blog_title : String)
    (h : findInList isContainer page = none) :
    update_html_file page fragmentNodes blog_title = none ∧
    update_html_file_run page fragmentNodes blog_title = page := by
  constructor
  · simp [update_html_file, h]
  · simp [update_html_file_run, update_html_file, h]

/-- C7 witness: a page whose only div has a different class. -/
theorem claim_C7_witness :
    update_html_file [Node.elem "div" ["other"] [Node.text "x"]] [] "T" = none ∧
    update_html_file_run [Node.elem "div" ["other"] [Node.text "x"]] [] "T"
      = [Node.elem "div" ["other"] [Node.text "x"]] :=
  claim_C7 [Node.elem "div" ["other"] [Node.text "x"]] [] "T" rfl

/-- C8 counterexample: a page whose `p.blog-date` node is nested inside
the container's first `h1`.  The date node is previously present in the
container (first conjunct), and the update succeeds, but
`title.string = blog_title` (line 289) destroys the h1's subtree —
including the nested date node — before the date lookup at line 297, so
the updated container holds no date node at all, contrary to the claim's
"then the previously present date node if one existed". -/
theorem claim_C8_cex :
    findInList isBlogDate
        [Node.elem "h1" [] [Node.elem "p" ["blog-date"] [Node.text "May 2024"]],
         Node.elem "p" [] [Node.text "body"]]
      = some (Node.elem "p" ["blog-date"] [Node.text "May 2024"]) ∧
    update_html_file
        [Node.elem "div" ["blog-container"]
          [Node.elem "h1" [] [Node.elem "p" ["blog-date"] [Node.text "May 2024"]],
           Node.elem "p" [] [Node.text "body"]]]
        [Node.elem "p" [] [Node.text "new body"]] "New"
      = some
        [Node.elem "div" ["blog-container"]
          [Node.elem "h1" [] [Node.text "New"],
           Node.elem "p" [] [Node.text "new body"]]] :=
  ⟨rfl, rfl⟩

/-- C8 (amended): on a successful update the container's children become
exactly: a fresh h1 carrying the new title, then the date node as found
*after* the title rewrite — that is the previously present date node,
except when that node was nested inside the container's first h1, in
which case the rewrite has destroyed it and no date node is preserved —
then the fragment's element nodes in order; `replChildrenInList` leaves
every node outside the matched container unchanged. -/
theorem claim_C8_amended (page fragmentNodes : List Node) (blog_title : String)
    (tagName : String) (cls : List String) (ch0 : List Node)
    (hfind : findInList isContainer page = some (Node.elem tagName cls ch0)) :
    update_html_file page fragmentNodes blog_title =
      some (replChildrenInList isContainer
        (Node.elem "h1" [] [Node.text blog_title] ::
          ((findInList isBlogDate (updateFirstH1 blog_title ch0)).toList
            ++ fragmentNodes.filter Node.isElem))
        page).1 := by
  simp only [update_html_file, hfind, Node.childrenOf]
  cases hd : findInList isBlogDate (updateFirstH1 blog_title ch0) with
  | none => simp [findInList]
  | some d => simp [findInList]

/-- C8 witness: a page with a container holding an old h1, a sibling
date and an old paragraph; after the update the container holds exactly
the new h1, the preserved date, and the fragment's element (its text
nodes skipped), and the wrapper body is untouched. -/
theorem claim_C8_witness :
    update_html_file
        [Node.elem "body" []
          [Node.elem "div" ["blog-container"]
            [Node.elem "h1" [] [Node.text "Old"],
             Node.elem "p" ["blog-date"] [Node.text "May 2024"],
             Node.elem "p" [] [Node.text "old body"]]]]
        [Node.elem "h3" [] [Node.text "S"], Node.text "\n"] "New"
      = some
        [Node.elem "body" []
          [Node.elem "div" ["blog-container"]
            [Node.elem "h1" [] [Node.text "New"],
             Node.elem "p" ["blog-date"] [Node.text "May 2024"],
             Node.elem "h3" [] [Node.text "S"]]]] :=
  (claim_C8_amended
    [Node.elem "body" []
      [Node.elem "div" ["blog-container"]
        [Node.elem "h1" [] [Node.text "Old"],
         Node.elem "p" ["blog-date"] [Node.text "May 2024"],
         Node.elem "p" [] [Node.text "old body"]]]]
    [Node.elem "h3" [] [Node.text "S"], Node.text "\n"] "New"
    "div" ["blog-container"]
    [Node.elem "h1" [] [Node.text "Old"],
     Node.elem "p" ["blog-date"] [Node.text "May 2024"],
     Node.elem "p" [] [Node.text "old body"]]
    rfl).trans rfl


end BlogUpdater
